import Mathlib

/-
Verification of the All-Service Line ROI calculator.

The development shallowly embeds the two source files:
  * allserviceline.py (namespace ASL): the scenario computation, the inline
    referral-percentage normalization block, and the analysis-period totals.
  * all-service-line-roi-v0.9.4/streamlit_app/app.py (namespace V094): the
    per-shift calculation, travel amortization, and annualization.

Modelling conventions: Python floats are modelled as exact rationals; the
Python built-in round (round half to even) is modelled by bround below; a
float nan (the roi of the no-coverage scenario in v0.9.4) is modelled as
Option.none.  UI-only state (labels, toggles that only drive rendering) is
omitted; every numeric field that feeds a computation is kept.
-/

/-- Round half to even on rationals: the behavior of the Python built-in
round applied to the exact value. -/
def bround (x : ℚ) : ℤ :=
  if Int.fract x < 1/2 then Int.floor x
  else if 1/2 < Int.fract x then Int.floor x + 1
  else if Int.floor x % 2 = 0 then Int.floor x else Int.floor x + 1

/-- bround is a nearest-integer rounding: it never moves the value by more
than one half. -/
theorem abs_bround_sub_le (x : ℚ) : |(bround x : ℚ) - x| ≤ 1/2 := by
  unfold bround
  have h0 : (0:ℚ) ≤ Int.fract x := Int.fract_nonneg x
  have h1 : Int.fract x < 1 := Int.fract_lt_one x
  have hf : (Int.floor x : ℚ) = x - Int.fract x := by
    rw [Int.self_sub_fract]
  split
  · rw [hf, abs_le]; constructor <;> linarith
  · split
    · push_cast
      rw [hf, abs_le]; constructor <;> linarith
    · split
      all_goals
        push_cast
        rw [hf, abs_le]
        constructor <;> linarith [le_of_not_lt (by assumption : ¬ Int.fract x < 1/2),
          le_of_not_lt (by assumption : ¬ 1/2 < Int.fract x)]

/-- Rounding a non-negative rational yields a non-negative integer. -/
theorem bround_nonneg (x : ℚ) (h : 0 ≤ x) : 0 ≤ bround x := by
  unfold bround
  have hf : (0:ℤ) ≤ Int.floor x := Int.floor_nonneg.mpr h
  split
  · exact hf
  · split
    · omega
    · split <;> omega

namespace ASL

/-- The clamping max(0, min(100, staffed_pct)) used in referral_revenue_for
and scenario (allserviceline.py lines 142 and 158). -/
def clamp_pct (x : ℚ) : ℚ := max 0 (min 100 x)

/-- The module-level form state that referral_revenue_for and scenario close
over (allserviceline.py lines 73-128).  ref_types holds, for each referral
type, its optional per-referral revenue: none models a type entry without its
own unit_rev, for which the code falls back to revenue_per_referral. -/
structure FormState where
  total_units : ℚ
  unit_rev : ℚ
  unit_cost : ℚ
  referrals_per_unit : ℚ
  revenue_per_referral : ℚ
  percent_values : List ℤ
  ref_types : List (Option ℚ)

/-- referral_revenue_for (allserviceline.py lines 141-148): total downstream
revenue accumulated over zip(percent_values, ref_types). -/
def referral_revenue_for (env : FormState) (staffed_pct : ℚ) : ℚ :=
  let ref_total := env.total_units * env.referrals_per_unit * (clamp_pct staffed_pct / 100)
  (env.percent_values.zip env.ref_types).foldl
    (fun total x => total + ref_total * ((x.1 : ℚ) / 100) * x.2.getD env.revenue_per_referral) 0

/-- The dict returned by scenario (allserviceline.py lines 166-175). -/
structure ScenarioResult where
  staffed_pct : ℚ
  units_covered : ℤ
  gross_rev : ℚ
  operating_cost : ℚ
  referral_rev : ℚ
  locum_total : ℚ
  net_before : ℚ
  net_after : ℚ

/-- scenario (allserviceline.py lines 151-175). -/
def scenario (env : FormState) (staffed_pct : ℚ) (locum_count : ℤ)
    (hourly_rate : ℚ) (hours_per_shift : ℤ) (travel_per_day : ℚ) : ScenarioResult :=
  let sp := clamp_pct staffed_pct
  let units_covered := bround (env.total_units * sp / 100)
  let gross_rev := (units_covered : ℚ) * env.unit_rev
  let operating_cost := (units_covered : ℚ) * env.unit_cost
  let ref_rev := referral_revenue_for env sp
  let locum_cost_per := (hourly_rate * (hours_per_shift : ℚ) + travel_per_day) * (locum_count : ℚ)
  let net_before := gross_rev + ref_rev - operating_cost
  { staffed_pct := sp
    units_covered := units_covered
    gross_rev := gross_rev
    operating_cost := operating_cost
    referral_rev := ref_rev
    locum_total := locum_cost_per
    net_before := net_before
    net_after := net_before - locum_cost_per }

/-- The inline percent_values normalization block (allserviceline.py lines
130-138): when the slider sum differs from 100, auto-normalize is on and the
sum is positive, every value is rescaled by 100/sum and rounded, and the
rounding drift (100 minus the rounded sum) is added to the first element. -/
def normalize_percent_values (normalize : Bool) (percent_values : List ℕ) : List ℤ :=
  let pct_sum := percent_values.sum
  if pct_sum ≠ 100 ∧ normalize = true ∧ 0 < pct_sum then
    let scaled := percent_values.map (fun p : ℕ => bround ((p : ℚ) * (100 / (pct_sum : ℚ))))
    match scaled with
    | [] => []
    | x :: rest => (x + (100 - (x :: rest).sum)) :: rest
  else percent_values.map (fun p : ℕ => (p : ℤ))

/-- Follows the words of the spec for the auto-normalize branch: scale every
value by 100/sum, round each to the nearest integer, then add the entire
residual (100 minus the rounded sum) to the first element.  Stated separately
so that the normalization in the code can be proved to refine it. -/
def spec_normalized_mix (ps : List ℕ) : List ℤ :=
  let s := ps.sum
  let scaled := ps.map (fun p : ℕ => bround ((p : ℚ) * (100 / (s : ℚ))))
  match scaled with
  | [] => []
  | x :: rest => (x + (100 - (x :: rest).sum)) :: rest

/-- The exact total spend override wiring (allserviceline.py lines 102-117):
the override value is only ever set when locums are in use and the toggle is
on; otherwise it stays None. -/
def exact_total_spend_override (use_locums use_exact_total_toggle : Bool)
    (entered : ℚ) : Option ℚ :=
  if use_locums = true ∧ use_exact_total_toggle = true then some entered else none

/-- Period locum spend (allserviceline.py lines 197-201): the override is used
exactly when locums are on, the toggle is on, the override is set and its
value is strictly positive; otherwise the per-shift total times the number of
days. -/
def period_locum_cost (use_locums use_exact_total_toggle : Bool)
    (ov : Option ℚ) (active_locum_total : ℚ) (annual_days : ℤ) : ℚ :=
  match ov with
  | some v =>
      if use_locums = true ∧ use_exact_total_toggle = true ∧ 0 < v then v
      else active_locum_total * (annual_days : ℚ)
  | none => active_locum_total * (annual_days : ℚ)

/-- Period net (allserviceline.py line 203). -/
def period_net (use_locums use_exact_total_toggle : Bool)
    (ov : Option ℚ) (active_net_before active_locum_total : ℚ)
    (annual_days : ℤ) : ℚ :=
  active_net_before * (annual_days : ℚ)
    - period_locum_cost use_locums use_exact_total_toggle ov active_locum_total annual_days

end ASL

namespace V094

/-- The overhead_base radio choice (app.py lines 91 and 286). -/
inductive OverheadBase where
  | direct
  | total

/-- The Inputs dataclass of v0.9.4 (app.py lines 64-100).  String and
display-only fields (service_line, preset, show_* toggles, safe_capacity,
which only drive labels, panel visibility and a warning) are omitted; every
field read by the calculation functions is kept. -/
structure Inputs where
  units : ℚ
  direct_per_unit : ℚ
  referral_rate : ℚ
  referral_rev : ℚ
  variable_cost_pct : ℚ
  locums_per_shift : ℤ
  locum_cost_per_shift : ℚ
  travel_per_locum : ℚ
  amortize_travel : Bool
  amortization_shifts : ℤ
  payer_medicare_pct : ℚ
  payer_commercial_pct : ℚ
  payer_medicaid_pct : ℚ
  medicare_factor : ℚ
  commercial_factor : ℚ
  medicaid_factor : ℚ
  overhead_base : OverheadBase
  overhead_pct : ℚ
  add_call_stipend : ℚ
  add_overtime_premium : ℚ
  add_holiday_premium : ℚ
  coverage_days_per_year : ℤ
  utilization_pct : ℚ

/-- normalized_payer_mix (app.py lines 106-114).  The changed flag of the
source only drives a UI info message and is dropped. -/
def normalized_payer_mix (i : Inputs) : ℚ × ℚ × ℚ :=
  let total := i.payer_medicare_pct + i.payer_commercial_pct + i.payer_medicaid_pct
  if total = 0 then (33/100, 34/100, 33/100)
  else (i.payer_medicare_pct / total, i.payer_commercial_pct / total,
    i.payer_medicaid_pct / total)

/-- blended_direct_rate (app.py lines 116-122). -/
def blended_direct_rate (i : Inputs) : ℚ :=
  let m := (normalized_payer_mix i).1
  let c := (normalized_payer_mix i).2.1
  let md := (normalized_payer_mix i).2.2
  i.direct_per_unit * (m * i.medicare_factor + c * i.commercial_factor + md * i.medicaid_factor)

/-- The private travel cost helper (app.py lines 124-128): per-locum travel,
optionally amortized over the amortization shifts, times the locum count. -/
def travel_cost_total (i : Inputs) : ℚ :=
  if i.amortize_travel = false ∨ i.amortization_shifts ≤ 0 then
    i.travel_per_locum * (i.locums_per_shift : ℚ)
  else (i.travel_per_locum / (i.amortization_shifts : ℚ)) * (i.locums_per_shift : ℚ)

/-- The effective travel charge attributable to one locum under the current
amortization setting, so that travel_cost_total is count times this value. -/
def travel_per_locum_effective (i : Inputs) : ℚ :=
  if i.amortize_travel = false ∨ i.amortization_shifts ≤ 0 then i.travel_per_locum
  else i.travel_per_locum / (i.amortization_shifts : ℚ)

/-- The dict returned by calculate_shift (app.py lines 150-160).  roi is
Option-valued: none models the float nan returned when there is no locum
coverage or the coverage cost is zero. -/
structure ShiftResult where
  units : ℚ
  direct_revenue : ℚ
  downstream : ℚ
  variable_costs : ℚ
  coverage_cost : ℚ
  overhead : ℚ
  total_costs : ℚ
  net : ℚ
  roi : Option ℚ

/-- calculate_shift (app.py lines 130-160). -/
def calculate_shift (i : Inputs) (with_locum : Bool) : ShiftResult :=
  let units : ℚ := if with_locum then i.units else 0
  let direct_rate := blended_direct_rate i
  let direct_revenue := units * direct_rate
  let variable_costs := units * direct_rate * i.variable_cost_pct
  let downstream := units * i.referral_rate * i.referral_rev
  let coverage_cost : ℚ :=
    if with_locum then
      (i.locums_per_shift : ℚ) * i.locum_cost_per_shift + travel_cost_total i
        + (i.add_call_stipend + i.add_overtime_premium + i.add_holiday_premium)
    else 0
  let overhead :=
    match i.overhead_base with
    | OverheadBase.direct => direct_revenue * i.overhead_pct
    | OverheadBase.total => (direct_revenue + downstream) * i.overhead_pct
  let total_costs := variable_costs + coverage_cost + overhead
  let net := (direct_revenue + downstream) - total_costs
  { units := units
    direct_revenue := direct_revenue
    downstream := downstream
    variable_costs := variable_costs
    coverage_cost := coverage_cost
    overhead := overhead
    total_costs := total_costs
    net := net
    roi := if with_locum = true ∧ coverage_cost ≠ 0 then some (net / coverage_cost) else none }

/-- calculate_annual (app.py lines 162-167): every finite field of the shift
dict is multiplied by days times utilization; the nan roi (modelled none) is
passed through unchanged, a finite roi (modelled some) is scaled. -/
def calculate_annual (i : Inputs) (shift_result : ShiftResult) : ShiftResult :=
  let factor : ℚ := (i.coverage_days_per_year : ℚ) * i.utilization_pct
  { units := shift_result.units * factor
    direct_revenue := shift_result.direct_revenue * factor
    downstream := shift_result.downstream * factor
    variable_costs := shift_result.variable_costs * factor
    coverage_cost := shift_result.coverage_cost * factor
    overhead := shift_result.overhead * factor
    total_costs := shift_result.total_costs * factor
    net := shift_result.net * factor
    roi := shift_result.roi.map (fun v => v * factor) }

end V094

namespace ASL

/-- referral_revenue_for reads only the referral-side fields of the form
state, so changing unit_rev leaves it unchanged. -/
theorem referral_revenue_for_update_unit_rev (env : FormState) (r sp : ℚ) :
    referral_revenue_for { env with unit_rev := r } sp = referral_revenue_for env sp := rfl

/-- Claim C1: for every evaluation of the scenario function, whatever the
inputs, the returned result satisfies net_after = net_before minus the
staffing (locum) cost, and net_before = gross revenue plus referral revenue
minus operating cost. -/
theorem c1_scenario_net_invariants (env : FormState) (staffed_pct : ℚ)
    (locum_count : ℤ) (hourly_rate : ℚ) (hours_per_shift : ℤ) (travel_per_day : ℚ) :
    ( scenario env staffed_pct locum_count hourly_rate hours_per_shift travel_per_day).net_after
      = ( scenario env staffed_pct locum_count hourly_rate hours_per_shift travel_per_day).net_before
        - ( scenario env staffed_pct locum_count hourly_rate hours_per_shift travel_per_day).locum_total
    ∧ ( scenario env staffed_pct locum_count hourly_rate hours_per_shift travel_per_day).net_before
      = ( scenario env staffed_pct locum_count hourly_rate hours_per_shift travel_per_day).gross_rev
        + ( scenario env staffed_pct locum_count hourly_rate hours_per_shift travel_per_day).referral_rev
        - ( scenario env staffed_pct locum_count hourly_rate hours_per_shift travel_per_day).operating_cost := by
  exact ⟨rfl, rfl⟩

/-- The form state of the worked example in the spec: 18 beds, 75 percent staffed,
revenue 2750 and cost 1850 per bed, 1.2 referrals per unit, the four-way
referral mix. -/
def c5_form : FormState :=
  { total_units := 18
    unit_rev := 2750
    unit_cost := 1850
    referrals_per_unit := 6/5
    revenue_per_referral := 900
    percent_values := [30, 25, 25, 20]
    ref_types := [some 500, some 1200, some 3000, some 800] }

/-- Claim C5: for every total_units at least 0 and every staffed_pct, the
evaluator computes units_covered as the rounding of total_units times the
clamped staffed percentage over 100 to a nearest integer (Python round,
half to even); in particular 18 units at 75 percent give 14 covered units
(round of 13.5, the tie resolved upward to the even integer 14). -/
theorem c5_units_covered_rounding (env : FormState) (staffed_pct : ℚ)
    (locum_count : ℤ) (hourly_rate : ℚ) (hours_per_shift : ℤ) (travel_per_day : ℚ)
    (_h : 0 ≤ env.total_units) :
    ( scenario env staffed_pct locum_count hourly_rate hours_per_shift travel_per_day).units_covered
      = bround (env.total_units * clamp_pct staffed_pct / 100)
    ∧ |(( scenario env staffed_pct locum_count hourly_rate hours_per_shift
          travel_per_day).units_covered : ℚ)
        - env.total_units * clamp_pct staffed_pct / 100| ≤ 1/2
    ∧ ( scenario c5_form 75 1 265 10 390).units_covered = 14 := by
  refine ⟨rfl, abs_bround_sub_le _, ?_⟩
  show bround ((18 : ℚ) * clamp_pct 75 / 100) = 14
  norm_num [clamp_pct, bround, Int.fract]

/-- Witness for C5 at the worked example of the spec. -/
theorem c5_units_covered_rounding_witness :
    (0 : ℚ) ≤ c5_form.total_units
    ∧ ( scenario c5_form 75 1 265 10 390).units_covered = 14 :=
  ⟨by norm_num [c5_form],
    (c5_units_covered_rounding c5_form 75 1 265 10 390 (by norm_num [c5_form])).2.2⟩

/-- A form state with a negative capacity, which the UI widgets would forbid
but the scenario function itself accepts. -/
def c6_form : FormState :=
  { total_units := -5
    unit_rev := 10
    unit_cost := 0
    referrals_per_unit := 0
    revenue_per_referral := 0
    percent_values := []
    ref_types := [] }

/-- Counterexample to claim C6: the scenario function performs no validation
and does not fail on a negative total_units; at total_units = -5 and
staffed_pct = 75 it silently computes the numeric result units_covered = -4
with gross revenue -40, contradicting that such inputs are rejected before
computation and never coerced into a numeric result. -/
theorem c6_counterexample :
    c6_form.total_units < 0
    ∧ ( scenario c6_form 75 0 0 0 0).units_covered = -4
    ∧ ( scenario c6_form 75 0 0 0 0).gross_rev = -40 := by
  refine ⟨by norm_num [c6_form], ?_, ?_⟩
  · show bround (c6_form.total_units * clamp_pct 75 / 100) = -4
    norm_num [c6_form, clamp_pct, bround, Int.fract]
  · show (bround (c6_form.total_units * clamp_pct 75 / 100) : ℚ) * c6_form.unit_rev = -40
    norm_num [c6_form, clamp_pct, bround, Int.fract]

/-- Claim C6 as amended: the scenario function itself performs no input
validation; even when total_units or a rate or cost is negative it proceeds
with the same arithmetic and returns a numeric result (non-negativity is
enforced upstream by the minimum values of the form widgets, not by the
evaluator). -/
theorem c6_no_validation (env : FormState) (staffed_pct : ℚ)
    (locum_count : ℤ) (hourly_rate : ℚ) (hours_per_shift : ℤ) (travel_per_day : ℚ)
    (_h : env.total_units < 0 ∨ env.unit_rev < 0 ∨ env.unit_cost < 0
      ∨ hourly_rate < 0 ∨ travel_per_day < 0) :
    ( scenario env staffed_pct locum_count hourly_rate hours_per_shift travel_per_day).units_covered
      = bround (env.total_units * clamp_pct staffed_pct / 100)
    ∧ ( scenario env staffed_pct locum_count hourly_rate hours_per_shift travel_per_day).gross_rev
      = (bround (env.total_units * clamp_pct staffed_pct / 100) : ℚ) * env.unit_rev
    ∧ ( scenario env staffed_pct locum_count hourly_rate hours_per_shift travel_per_day).net_after
      = ( scenario env staffed_pct locum_count hourly_rate hours_per_shift travel_per_day).net_before
        - ( scenario env staffed_pct locum_count hourly_rate hours_per_shift travel_per_day).locum_total := by
  exact ⟨rfl, rfl, rfl⟩

/-- Witness for the amended C6 at the negative-capacity form state. -/
theorem c6_no_validation_witness :
    (c6_form.total_units < 0 ∨ c6_form.unit_rev < 0 ∨ c6_form.unit_cost < 0
      ∨ (0:ℚ) < 0 ∨ (0:ℚ) < 0)
    ∧ ( scenario c6_form 75 0 0 0 0).units_covered
        = bround (c6_form.total_units * clamp_pct 75 / 100) :=
  ⟨Or.inl (by norm_num [c6_form]),
    (c6_no_validation c6_form 75 0 0 0 0 (Or.inl (by norm_num [c6_form]))).1⟩

/-- Claim C7: for two evaluations of scenario that differ only in unit_rev,
with a non-negative total capacity, the one with the larger or equal
unit_rev has a larger or equal net_before. -/
theorem c7_net_before_monotone_unit_rev (env : FormState) (r r' staffed_pct : ℚ)
    (locum_count : ℤ) (hourly_rate : ℚ) (hours_per_shift : ℤ) (travel_per_day : ℚ)
    (h0 : 0 ≤ env.total_units) (hle : r ≤ r') :
    ( scenario { env with unit_rev := r } staffed_pct locum_count hourly_rate
        hours_per_shift travel_per_day).net_before
      ≤ ( scenario { env with unit_rev := r' } staffed_pct locum_count hourly_rate
        hours_per_shift travel_per_day).net_before := by
  show (bround (env.total_units * clamp_pct staffed_pct / 100) : ℚ) * r
      + referral_revenue_for { env with unit_rev := r } (clamp_pct staffed_pct)
      - (bround (env.total_units * clamp_pct staffed_pct / 100) : ℚ) * env.unit_cost
    ≤ (bround (env.total_units * clamp_pct staffed_pct / 100) : ℚ) * r'
      + referral_revenue_for { env with unit_rev := r' } (clamp_pct staffed_pct)
      - (bround (env.total_units * clamp_pct staffed_pct / 100) : ℚ) * env.unit_cost
  rw [referral_revenue_for_update_unit_rev env r, referral_revenue_for_update_unit_rev env r']
  have huc : (0:ℚ) ≤ (bround (env.total_units * clamp_pct staffed_pct / 100) : ℚ) := by
    have hx : (0:ℤ) ≤ bround (env.total_units * clamp_pct staffed_pct / 100) :=
      bround_nonneg _ (div_nonneg (mul_nonneg h0 (le_max_left _ _)) (by norm_num))
    exact_mod_cast hx
  have h3 := mul_le_mul_of_nonneg_left hle huc
  linarith

/-- Witness for C7: raising the per-bed revenue of the worked example from
2750 to 2800 does not decrease net_before. -/
theorem c7_net_before_monotone_unit_rev_witness :
    (0 : ℚ) ≤ c5_form.total_units ∧ (2750 : ℚ) ≤ 2800
    ∧ ( scenario { c5_form with unit_rev := 2750 } 75 1 265 10 390).net_before
      ≤ ( scenario { c5_form with unit_rev := 2800 } 75 1 265 10 390).net_before :=
  ⟨by norm_num [c5_form], by norm_num,
    c7_net_before_monotone_unit_rev c5_form 2750 2800 75 1 265 10 390
      (by norm_num [c5_form]) (by norm_num)⟩

/-- Claim C2: for every ordered sequence of non-negative integer percentages
whose sum is positive and different from 100, with auto-normalize enabled,
the normalization block computes exactly the sequence described by the spec
(each value scaled by 100/sum and rounded, the entire residual drift added to
the first element), preserves the length, and the result sums to exactly
100. -/
theorem c2_auto_normalize (ps : List ℕ) (h1 : 0 < ps.sum) (h2 : ps.sum ≠ 100) :
    normalize_percent_values true ps = spec_normalized_mix ps
    ∧ (normalize_percent_values true ps).length = ps.length
    ∧ (normalize_percent_values true ps).sum = 100 := by
  have heq : normalize_percent_values true ps = spec_normalized_mix ps := by
    unfold normalize_percent_values spec_normalized_mix
    rw [if_pos ⟨h2, rfl, h1⟩]
  refine ⟨heq, ?_, ?_⟩ <;> rw [heq]
  · cases ps with
    | nil => simp at h1
    | cons a as =>
      unfold spec_normalized_mix
      simp only [List.map_cons]
      simp only [List.length_cons, List.length_map]
  · cases ps with
    | nil => simp at h1
    | cons a as =>
      unfold spec_normalized_mix
      simp only [List.map_cons]
      simp only [List.sum_cons]
      ring

/-- Witness for C2 at the example mix of the spec [50, 30, 10] with sum 90. -/
theorem c2_auto_normalize_witness :
    0 < ([50, 30, 10] : List ℕ).sum ∧ ([50, 30, 10] : List ℕ).sum ≠ 100
    ∧ (normalize_percent_values true [50, 30, 10]).sum = 100
    ∧ (normalize_percent_values true [50, 30, 10]).length = 3 :=
  ⟨by decide, by decide,
    (c2_auto_normalize [50, 30, 10] (by decide) (by decide)).2.2,
    ((c2_auto_normalize [50, 30, 10] (by decide) (by decide)).2.1).trans (by decide)⟩

/-- Claim C8: a mix that already sums to exactly 100 passes through the
normalization block unchanged, element by element and in order, whatever the
auto-normalize toggle. -/
theorem c8_idempotent_at_100 (b : Bool) (ps : List ℕ) (h : ps.sum = 100) :
    normalize_percent_values b ps = ps.map (fun p : ℕ => (p : ℤ)) := by
  unfold normalize_percent_values
  rw [if_neg (by simp [h])]

/-- Witness for C8 at the default referral mix [30, 25, 25, 20]. -/
theorem c8_idempotent_at_100_witness :
    ([30, 25, 25, 20] : List ℕ).sum = 100
    ∧ normalize_percent_values true [30, 25, 25, 20] = [30, 25, 25, 20] :=
  ⟨by decide, (c8_idempotent_at_100 true [30, 25, 25, 20] (by decide)).trans (by decide)⟩

/-- Claim C3: with the analysis period at least one day, when the exact total
override is supplied (which in the program entails that locums and the toggle
are both on) and strictly positive, the period staffing cost equals the
override regardless of the number of days and of the per-shift cost; when no
positive override is supplied it equals the per-shift staffing cost times the
number of days; and in both cases the period net equals net_before times the
number of days minus the period staffing cost. -/
theorem c3_period_override_aggregation (use_locums use_exact_total_toggle : Bool)
    (entered active_net_before active_locum_total : ℚ) (annual_days : ℤ)
    (_hd : 1 ≤ annual_days) :
    (∀ v : ℚ, exact_total_spend_override use_locums use_exact_total_toggle entered = some v →
      0 < v →
      period_locum_cost use_locums use_exact_total_toggle
        (exact_total_spend_override use_locums use_exact_total_toggle entered)
        active_locum_total annual_days = v)
    ∧ ((∀ v : ℚ, exact_total_spend_override use_locums use_exact_total_toggle entered = some v →
        v ≤ 0) →
      period_locum_cost use_locums use_exact_total_toggle
        (exact_total_spend_override use_locums use_exact_total_toggle entered)
        active_locum_total annual_days = active_locum_total * (annual_days : ℚ))
    ∧ period_net use_locums use_exact_total_toggle
        (exact_total_spend_override use_locums use_exact_total_toggle entered)
        active_net_before active_locum_total annual_days
      = active_net_before * (annual_days : ℚ)
        - period_locum_cost use_locums use_exact_total_toggle
            (exact_total_spend_override use_locums use_exact_total_toggle entered)
            active_locum_total annual_days := by
  refine ⟨?_, ?_, rfl⟩
  · intro v hv hvpos
    unfold exact_total_spend_override at hv
    by_cases hc : use_locums = true ∧ use_exact_total_toggle = true
    · rw [if_pos hc] at hv
      have he : entered = v := by injection hv
      subst he
      unfold exact_total_spend_override
      rw [if_pos hc]
      simp only [period_locum_cost]
      rw [if_pos ⟨hc.1, hc.2, hvpos⟩]
    · rw [if_neg hc] at hv
      exact absurd hv (by simp)
  · intro hall
    unfold exact_total_spend_override at hall ⊢
    by_cases hc : use_locums = true ∧ use_exact_total_toggle = true
    · rw [if_pos hc] at hall ⊢
      have hv : entered ≤ 0 := hall entered rfl
      simp only [period_locum_cost]
      rw [if_neg (fun hcc => absurd hcc.2.2 (not_lt.mpr hv))]
    · rw [if_neg hc]
      simp only [period_locum_cost]

/-- Witness for C3 at the example of the spec: override 50000, per-shift cost
3040, 365 days. -/
theorem c3_period_override_aggregation_witness :
    (1 : ℤ) ≤ 365
    ∧ period_locum_cost true true (exact_total_spend_override true true 50000) 3040 365 = 50000 :=
  ⟨by norm_num,
    (c3_period_override_aggregation true true 50000 0 3040 365 (by norm_num)).1
      50000 rfl (by norm_num)⟩

end ASL

namespace V094

/-- travel_cost_total is the per-locum effective travel charge times the
locum count. -/
theorem travel_cost_total_eq (i : Inputs) :
    travel_cost_total i = travel_per_locum_effective i * (i.locums_per_shift : ℚ) := by
  unfold travel_cost_total travel_per_locum_effective
  split_ifs <;> rfl

/-- Claim C9: calculate_shift with with_locum = False returns, for every
input record, a result whose units, direct_revenue, downstream,
variable_costs, coverage_cost, overhead and total_costs are all exactly 0,
whose net is exactly 0, and whose roi is the nan marker (none): the
no-coverage scenario ignores the entered unit volume and staffing level
entirely. -/
theorem c9_no_coverage_all_zero (i : Inputs) :
    (calculate_shift i false).units = 0
    ∧ (calculate_shift i false).direct_revenue = 0
    ∧ (calculate_shift i false).downstream = 0
    ∧ (calculate_shift i false).variable_costs = 0
    ∧ (calculate_shift i false).coverage_cost = 0
    ∧ (calculate_shift i false).overhead = 0
    ∧ (calculate_shift i false).total_costs = 0
    ∧ (calculate_shift i false).net = 0
    ∧ (calculate_shift i false).roi = none := by
  unfold calculate_shift
  cases i.overhead_base <;> simp

/-- Claim C10: calculate_annual multiplies every finite numeric field of the
per-shift result, the roi ratio included, by the single factor
coverage_days_per_year times utilization_pct, and passes the non-finite roi
marker (none) through unchanged, since Option.map leaves none untouched. -/
theorem c10_annual_uniform_scaling (i : Inputs) (shift_result : ShiftResult) :
    (calculate_annual i shift_result).units
      = shift_result.units * ((i.coverage_days_per_year : ℚ) * i.utilization_pct)
    ∧ (calculate_annual i shift_result).direct_revenue
      = shift_result.direct_revenue * ((i.coverage_days_per_year : ℚ) * i.utilization_pct)
    ∧ (calculate_annual i shift_result).downstream
      = shift_result.downstream * ((i.coverage_days_per_year : ℚ) * i.utilization_pct)
    ∧ (calculate_annual i shift_result).variable_costs
      = shift_result.variable_costs * ((i.coverage_days_per_year : ℚ) * i.utilization_pct)
    ∧ (calculate_annual i shift_result).coverage_cost
      = shift_result.coverage_cost * ((i.coverage_days_per_year : ℚ) * i.utilization_pct)
    ∧ (calculate_annual i shift_result).overhead
      = shift_result.overhead * ((i.coverage_days_per_year : ℚ) * i.utilization_pct)
    ∧ (calculate_annual i shift_result).total_costs
      = shift_result.total_costs * ((i.coverage_days_per_year : ℚ) * i.utilization_pct)
    ∧ (calculate_annual i shift_result).net
      = shift_result.net * ((i.coverage_days_per_year : ℚ) * i.utilization_pct)
    ∧ (calculate_annual i shift_result).roi
      = shift_result.roi.map
          (fun v => v * ((i.coverage_days_per_year : ℚ) * i.utilization_pct)) := by
  exact ⟨rfl, rfl, rfl, rfl, rfl, rfl, rfl, rfl, rfl⟩

end V094

/-- Claim C4: in both variants the staffing cost is the locum count times a
per-locum rate composed first (hourly rate times hours per shift plus the
per-day travel addon in allserviceline.py; per-shift locum cost plus the
effective per-locum travel charge in v0.9.4), plus a fixed addon not scaled
by the count (zero in allserviceline.py; the stipend and premium adders in
v0.9.4): the count multiplies the composed rate exactly once, never a
sub-term twice. -/
theorem c4_staffing_cost_composition (env : ASL.FormState) (staffed_pct : ℚ)
    (locum_count : ℤ) (hourly_rate : ℚ) (hours_per_shift : ℤ) (travel_per_day : ℚ)
    (i : V094.Inputs) :
    ( ASL.scenario env staffed_pct locum_count hourly_rate hours_per_shift
        travel_per_day).locum_total
      = (locum_count : ℚ) * (hourly_rate * (hours_per_shift : ℚ) + travel_per_day) + 0
    ∧ (V094.calculate_shift i true).coverage_cost
      = (i.locums_per_shift : ℚ)
          * (i.locum_cost_per_shift + V094.travel_per_locum_effective i)
        + (i.add_call_stipend + i.add_overtime_premium + i.add_holiday_premium) := by
  constructor
  · show (hourly_rate * (hours_per_shift : ℚ) + travel_per_day) * (locum_count : ℚ)
      = (locum_count : ℚ) * (hourly_rate * (hours_per_shift : ℚ) + travel_per_day) + 0
    ring
  · show (i.locums_per_shift : ℚ) * i.locum_cost_per_shift + V094.travel_cost_total i
        + (i.add_call_stipend + i.add_overtime_premium + i.add_holiday_premium)
      = (i.locums_per_shift : ℚ)
          * (i.locum_cost_per_shift + V094.travel_per_locum_effective i)
        + (i.add_call_stipend + i.add_overtime_premium + i.add_holiday_premium)
    rw [V094.travel_cost_total_eq]
    ring
